import Mathlib

/-!
Shallow embedding of `src/whatsapp/transcribe.py`.

The script is a straight-line CLI driver:

  if len(sys.argv) < 2:
      print("Usage: python transcribe.py <audio_file>")
      sys.exit(1)
  audio_path = sys.argv[1]
  model_name = sys.argv[2] if len(sys.argv) > 2 else "base"
  model = whisper.load_model(model_name)
  result = model.transcribe(audio_path, language="en")
  print(result["text"].strip())

The two external collaborator calls (`whisper.load_model`, the model's
`transcribe` method) are modelled as oracles supplied in an `Env`; each
may fail (`Except`), matching an uncaught Python exception.  The run
produces an `Outcome`: the ordered trace of delegate calls and prints,
the list of lines written to standard output, and how the process
terminated.  `Termination.exn` models an uncaught exception, which in
Python terminates the process with exit status 1 (non-zero).
-/

/-- The transcription result, of which the script consumes only the
`text` field (`result["text"]`). -/
structure TResult where
  text : String
deriving DecidableEq

/-- Observable events of a run: each call to the model loader, each
transcription call (with the audio path and language argument), and
each line printed by `print`. -/
inductive Event where
  | load_model (name : String)
  | transcribe (audio_path : String) (language : String)
  | print (line : String)
deriving DecidableEq

/-- How the process terminated: `normal code` models `sys.exit(code)` or
falling off the end of the script (code 0); `exn` models an uncaught
exception propagating to the process boundary. -/
inductive Termination where
  | normal (code : Nat)
  | exn (msg : String)
deriving DecidableEq

/-- The exit status of the process: Python exits with status 1 when an
uncaught exception reaches the top level. -/
def exitStatus : Termination → Nat
  | .normal code => code
  | .exn _ => 1

/-- The observable outcome of one invocation: the ordered event trace,
the lines printed to standard output (`print` appends a newline to
each), and the termination. -/
structure Outcome where
  events : List Event
  stdout : List String
  term : Termination
deriving DecidableEq

/-- Standard output rendered as the actual character stream: every
printed line is followed by one newline. -/
def renderStdout (lines : List String) : String :=
  String.join (lines.map (fun l => l ++ "\n"))

/-- The external speech-recognition collaborator (the `whisper`
library), abstracted over the type `μ` of loaded model handles.
`load_model` resolves an identifier to a handle; `transcribe` runs a
handle on an audio path with a language argument and yields a result
exposing a `text` field.  An `Except.error` models a raised
exception. -/
structure Env (μ : Type) where
  load_model : String → Except String μ
  transcribe : μ → String → String → Except String TResult

/-- The usage message printed when the required argument is missing. -/
def usageMsg : String := "Usage: python transcribe.py <audio_file>"

/-- The part of the script after the argument check: load the model,
transcribe the audio with `language="en"`, print the trimmed text.  A
delegate failure propagates: later steps do not run and nothing is
printed. -/
def runBody {μ : Type} (env : Env μ) (audio_path model_name : String) : Outcome :=
  match env.load_model model_name with
  | .error e =>
      { events := [.load_model model_name], stdout := [], term := .exn e }
  | .ok model =>
      match env.transcribe model audio_path "en" with
      | .error e =>
          { events := [.load_model model_name, .transcribe audio_path "en"],
            stdout := [], term := .exn e }
      | .ok result =>
          { events := [.load_model model_name, .transcribe audio_path "en",
                       .print result.text.trim],
            stdout := [result.text.trim],
            term := .normal 0 }

/-- The whole script on an argument vector `argv` (with `argv[0]` the
program name, as in `sys.argv`): if `len(sys.argv) < 2`, print the
usage message and exit with status 1; otherwise take `sys.argv[1]` as
the audio path and `sys.argv[2]` (if present) as the model name,
defaulting to `"base"`, and run the body. -/
def run {μ : Type} (env : Env μ) (argv : List String) : Outcome :=
  if argv.length < 2 then
    { events := [], stdout := [usageMsg], term := .normal 1 }
  else
    runBody env (argv.getD 1 "")
      (if argv.length > 2 then argv.getD 2 "" else "base")

/-- The model identifier chosen from the arguments after the audio
path: the next argument if present, else the default `"base"`. -/
def modelNameOf : List String → String
  | [] => "base"
  | m :: _ => m

/-- A concrete environment in which both delegate calls succeed. -/
def envOk : Env Unit :=
  { load_model := fun _ => .ok ()
    transcribe := fun _ _ _ => .ok { text := "  hello world  " } }

/-- A concrete environment in which the model loader always fails. -/
def envLoadFail : Env Unit :=
  { load_model := fun n => .error ("unsupported model: " ++ n)
    transcribe := fun _ _ _ => .ok { text := "x" } }

theorem run_cons {μ : Type} (env : Env μ) (p a : String) (r : List String) :
    run env (p :: a :: r) = runBody env a (modelNameOf r) := by
  cases r with
  | nil => rfl
  | cons m r =>
      simp only [run, modelNameOf, List.length_cons, List.getD_cons_succ,
        List.getD_cons_zero]
      rw [if_neg (by omega), if_pos (by omega)]

theorem runBody_events_head {μ : Type} (env : Env μ) (a nm : String) :
    (runBody env a nm).events.head? = some (Event.load_model nm) := by
  cases h1 : env.load_model nm with
  | error e => simp [runBody, h1]
  | ok m =>
      cases h2 : env.transcribe m a "en" with
      | error e => simp [runBody, h1, h2]
      | ok res => simp [runBody, h1, h2]

theorem renderStdout_singleton (s : String) : renderStdout [s] = s ++ "\n" := by
  simp [renderStdout, String.join]

/-- Claim C1: with fewer than one positional argument (only the program
name, or nothing), the program prints exactly the usage line
`Usage: python transcribe.py <audio_file>` and exits with status 1,
performing no model-load, transcription or transcript print. -/
theorem usage_on_missing_argument {μ : Type} (env : Env μ) (argv : List String)
    (h : argv.length < 2) :
    run env argv =
      { events := [], stdout := [usageMsg], term := .normal 1 } := by
  simp [run, h]

theorem usage_on_missing_argument_witness :
    run envOk ["transcribe.py"] =
      { events := [], stdout := ["Usage: python transcribe.py <audio_file>"],
        term := .normal 1 } :=
  usage_on_missing_argument envOk ["transcribe.py"] (by decide)

/-- Claim C2: whenever the first argument is present and the delegates
produce a transcription result, the character stream printed to
standard output is exactly the result's `text` field with leading and
trailing whitespace removed, followed by a single newline, and nothing
else. -/
theorem printed_output_is_trimmed_text {μ : Type} (env : Env μ)
    (p a : String) (r : List String) (m : μ) (res : TResult)
    (hload : env.load_model (modelNameOf r) = .ok m)
    (htr : env.transcribe m a "en" = .ok res) :
    renderStdout (run env (p :: a :: r)).stdout = res.text.trim ++ "\n" := by
  rw [run_cons]
  simp [runBody, hload, htr, renderStdout_singleton]

theorem printed_output_is_trimmed_text_witness :
    renderStdout (run envOk ["transcribe.py", "a.wav"]).stdout =
      String.trim "  hello world  " ++ "\n" :=
  printed_output_is_trimmed_text envOk "transcribe.py" "a.wav" [] ()
    { text := "  hello world  " } rfl rfl

/-- Claim C3: with an audio file path and no second positional
argument, the identifier passed to the model loader is exactly
`"base"`. -/
theorem default_model_is_base {μ : Type} (env : Env μ) (p a : String) :
    (run env [p, a]).events.head? = some (Event.load_model "base") := by
  rw [run_cons]
  exact runBody_events_head env a (modelNameOf [])

/-- Claim C4: with an audio file path and an explicit second positional
argument, that exact string is passed to the model loader, untouched. -/
theorem explicit_model_passed_verbatim {μ : Type} (env : Env μ)
    (p a m : String) (r : List String) :
    (run env (p :: a :: m :: r)).events.head? = some (Event.load_model m) := by
  rw [run_cons]
  exact runBody_events_head env a (modelNameOf (m :: r))

/-- Claim C5: every transcription call performed by any invocation
carries the fixed language argument `"en"`, independent of the
command-line inputs. -/
theorem language_always_en {μ : Type} (env : Env μ) (argv : List String)
    (a l : String) (h : Event.transcribe a l ∈ (run env argv).events) :
    l = "en" := by
  match argv with
  | [] => simp [run] at h
  | [p] => simp [run] at h
  | p :: a2 :: r =>
      rw [run_cons] at h
      cases h1 : env.load_model (modelNameOf r) with
      | error e => simp [runBody, h1] at h
      | ok m =>
          cases h2 : env.transcribe m a2 "en" with
          | error e =>
              simp [runBody, h1, h2] at h
              exact h.2
          | ok res =>
              simp [runBody, h1, h2] at h
              exact h.2

theorem language_always_en_witness : ("en" : String) = "en" :=
  language_always_en envOk ["transcribe.py", "a.wav"] "a.wav" "en" (by decide)

/-- Claim C6: when the model-loading step or the transcription step
fails, the failure is not caught: the process terminates with a
non-zero exit status and no transcript line is printed. -/
theorem delegate_failure_propagates {μ : Type} (env : Env μ)
    (p a : String) (r : List String)
    (h : (∃ e, env.load_model (modelNameOf r) = .error e) ∨
         (∃ m e, env.load_model (modelNameOf r) = .ok m ∧
                 env.transcribe m a "en" = .error e)) :
    exitStatus (run env (p :: a :: r)).term ≠ 0 ∧
    (run env (p :: a :: r)).stdout = [] := by
  rw [run_cons]
  rcases h with ⟨e, he⟩ | ⟨m, e, hm, he⟩
  · simp [runBody, he, exitStatus]
  · simp [runBody, hm, he, exitStatus]

theorem delegate_failure_propagates_witness :
    exitStatus (run envLoadFail ["transcribe.py", "a.wav"]).term ≠ 0 ∧
    (run envLoadFail ["transcribe.py", "a.wav"]).stdout = [] :=
  delegate_failure_propagates envLoadFail "transcribe.py" "a.wav" []
    (Or.inl ⟨"unsupported model: " ++ "base", rfl⟩)

/-- Claim C7: when the argument check passes and both delegate calls
succeed, the program prints the transcript and exits with status 0. -/
theorem success_exits_zero {μ : Type} (env : Env μ)
    (p a : String) (r : List String) (m : μ) (res : TResult)
    (hload : env.load_model (modelNameOf r) = .ok m)
    (htr : env.transcribe m a "en" = .ok res) :
    (run env (p :: a :: r)).term = .normal 0 ∧
    (run env (p :: a :: r)).stdout = [res.text.trim] := by
  rw [run_cons]
  simp [runBody, hload, htr]

theorem success_exits_zero_witness :
    (run envOk ["transcribe.py", "speech.wav"]).term = .normal 0 ∧
    (run envOk ["transcribe.py", "speech.wav"]).stdout =
      [String.trim "  hello world  "] :=
  success_exits_zero envOk "transcribe.py" "speech.wav" [] ()
    { text := "  hello world  " } rfl rfl

/-- Claim C8, counterexample: with the first argument present but the
model loader failing, the run performs no transcription call at all, so
the claimed sequence of exactly one load, one transcription and one
print does not occur on every such invocation. -/
theorem call_sequence_counterexample :
    (run envLoadFail ["transcribe.py", "a.wav"]).events =
      [Event.load_model "base"] ∧
    Event.transcribe "a.wav" "en" ∉
      (run envLoadFail ["transcribe.py", "a.wav"]).events := by
  decide

/-- Claim C8, amended: whenever the first argument is present, the
event trace is a prefix of the sequence one model load, then one
transcription of argument 1 with language `"en"`, then one print of the
result; in particular the load always happens, transcription never
precedes it, printing never precedes transcription, and each step
occurs at most once.  Moreover, when both delegate calls succeed, the
trace is exactly that three-step sequence: each step occurs exactly
once, in that strict order. -/
theorem call_sequence_is_prefix {μ : Type} (env : Env μ)
    (p a : String) (r : List String) :
    ((run env (p :: a :: r)).events = [Event.load_model (modelNameOf r)] ∨
     (run env (p :: a :: r)).events =
       [Event.load_model (modelNameOf r), Event.transcribe a "en"] ∨
     (∃ t, (run env (p :: a :: r)).events =
       [Event.load_model (modelNameOf r), Event.transcribe a "en",
        Event.print t])) ∧
    (∀ m res, env.load_model (modelNameOf r) = .ok m →
       env.transcribe m a "en" = .ok res →
       (run env (p :: a :: r)).events =
         [Event.load_model (modelNameOf r), Event.transcribe a "en",
          Event.print res.text.trim]) := by
  rw [run_cons]
  constructor
  · cases h1 : env.load_model (modelNameOf r) with
    | error e => exact Or.inl (by simp [runBody, h1])
    | ok m =>
        cases h2 : env.transcribe m a "en" with
        | error e => exact Or.inr (Or.inl (by simp [runBody, h1, h2]))
        | ok res =>
            exact Or.inr (Or.inr ⟨res.text.trim, by simp [runBody, h1, h2]⟩)
  · intro m res h1 h2
    simp [runBody, h1, h2]

/-- Claim C9: positional arguments beyond the second are silently
ignored — two invocations agreeing on the first two positional
arguments produce identical outcomes (same delegate calls with the same
audio path and model identifier, same output, same termination),
whatever extra arguments follow and with no error for the surplus. -/
theorem extra_arguments_ignored {μ : Type} (env : Env μ)
    (p q a m : String) (r s : List String) :
    run env (p :: a :: m :: r) = run env (q :: a :: m :: s) := by
  rw [run_cons, run_cons]
  rfl

/-- Claim C10: the argument check tests only the count of arguments,
never their content — an empty-string audio path (and an empty-string
model name) passes the usage check and is forwarded verbatim to the
body that calls the delegates, and such a run never terminates as a
usage error (exit via status 1 from the check). -/
theorem empty_string_arguments_pass_check {μ : Type} (env : Env μ) (p : String) :
    run env [p, ""] = runBody env "" "base" ∧
    run env [p, "", ""] = runBody env "" "" ∧
    (run env [p, ""]).term ≠ Termination.normal 1 := by
  refine ⟨run_cons env p "" [], run_cons env p "" [""], ?_⟩
  rw [run_cons]
  cases h1 : env.load_model (modelNameOf []) with
  | error e => simp [runBody, h1]
  | ok m =>
      cases h2 : env.transcribe m "" "en" with
      | error e => simp [runBody, h1, h2]
      | ok res => simp [runBody, h1, h2]
